import Mathlib

/-!
Shallow embedding of the kitchen-printer-tap core (Go sources under
internal/job, internal/capture and the upload package) for checking the
specification's claims.

Conventions of the embedding:
* machine integers become `Nat` (ports, sequence numbers, sizes, counters);
  wall-clock instants become `Nat` ticks passed in explicitly where the Go
  code calls `time.Now()`;
* payload bytes become `List Nat`;
* external, fallible effects (statfs, mkdir, file writes, JSON marshalling,
  HTTP attempts) are driven by explicit outcome parameters so a single pure
  function covers every run of the Go code;
* library calls whose value the code only passes through (crypto/sha256,
  json.MarshalIndent of the metadata, time.Format of the date path) are
  abstract function parameters.
-/

namespace Tap

/-! ## Job (internal/job/job.go) -/

/-- Mirrors the Go `Metadata` struct (job.go lines 18-32). -/
structure Metadata where
  jobID : String
  deviceID : String
  siteID : String
  printerIP : String
  printerPort : Nat
  srcIP : String
  captureStartTS : Nat
  captureEndTS : Nat
  byteLen : Nat
  sha256 : String
  transport : String
  tags : List String
  reprintOfJobID : String
deriving Repr, DecidableEq

/-- Mirrors the Go `Job` struct (job.go lines 35-40); the mutex is dropped
because the embedding is sequential. -/
structure Job where
  metadata : Metadata
  data : List Nat
  closed : Bool
deriving Repr, DecidableEq

/-- `Job.Append` (job.go lines 61-71): returns the updated job and the Go
return value (`false` when the job is already closed). -/
def Job.append (j : Job) (d : List Nat) : Job × Bool :=
  if j.closed then (j, false)
  else ({ j with data := j.data ++ d }, true)

/-- `Job.Close` (job.go lines 74-88). `now` stands for `time.Now().UTC()` and
`hashFn` for hex-encoded `sha256.Sum256`. -/
def Job.close (j : Job) (now : Nat) (hashFn : List Nat → String) : Job :=
  if j.closed then j
  else
    { j with
      closed := true
      metadata :=
        { j.metadata with
          captureEndTS := now
          byteLen := j.data.length
          sha256 := hashFn j.data } }

/-- `Job.IsClosed` (job.go lines 91-95). -/
def Job.isClosed (j : Job) : Bool := j.closed

/-- `Job.GetHash` (job.go lines 98-102). -/
def Job.getHash (j : Job) : String := j.metadata.sha256

/-- `Job.AddTag` (job.go lines 105-109): appends unconditionally, with no
closed-state check. -/
def Job.addTag (j : Job) (tag : String) : Job :=
  { j with metadata := { j.metadata with tags := j.metadata.tags ++ [tag] } }

/-- `Job.SetReprintOf` (job.go lines 112-122): sets the back-reference, then
appends the "reprint" tag unless it is already present; no closed-state
check. -/
def Job.setReprintOf (j : Job) (jobID : String) : Job :=
  let m := { j.metadata with reprintOfJobID := jobID }
  if m.tags.contains "reprint" then { j with metadata := m }
  else { j with metadata := { m with tags := m.tags ++ ["reprint"] } }

/-! ## Filesystem model for the Store -/

/-- Flat view of the filesystem the Store touches: regular files as an
association list from path to contents, plus the set of directories
created. -/
structure FS where
  files : List (String × List Nat)
  dirs : List String
deriving Repr, DecidableEq

def FS.get (fs : FS) (p : String) : Option (List Nat) :=
  (fs.files.find? (fun e => e.1 == p)).map (fun e => e.2)

def FS.write (fs : FS) (p : String) (d : List Nat) : FS :=
  { fs with files := (p, d) :: fs.files.filter (fun e => e.1 != p) }

def FS.remove (fs : FS) (p : String) : FS :=
  { fs with files := fs.files.filter (fun e => e.1 != p) }

def FS.mkdir (fs : FS) (d : String) : FS :=
  { fs with dirs := d :: fs.dirs }

/-- Outcome of one `writeFileAtomic` call: which step of
open / write / fsync / close / rename failed, if any (job.go
lines 190-219). -/
inductive WriteOutcome where
  | ok
  | openErr
  | writeErr
  | syncErr
  | closeErr
  | renameErr
deriving Repr, DecidableEq

/-- `Store.writeFileAtomic` (job.go lines 190-219). On open failure nothing
was created; on any later failure the temporary file was created (perhaps
partially written) and then removed, so the net effect is removal of the
temporary path; on success the data reaches the temporary path and the
rename moves it onto the final path. -/
def writeFileAtomic (fs : FS) (tmpPath finalPath : String) (data : List Nat) :
    WriteOutcome → FS × Bool
  | .openErr => (fs, false)
  | .writeErr => ((fs.write tmpPath data).remove tmpPath, false)
  | .syncErr => ((fs.write tmpPath data).remove tmpPath, false)
  | .closeErr => ((fs.write tmpPath data).remove tmpPath, false)
  | .renameErr => ((fs.write tmpPath data).remove tmpPath, false)
  | .ok => (((fs.write tmpPath data).remove tmpPath).write finalPath data, true)

/-- The `syscall.Statfs_t` fields `hasEnoughSpace` reads (job.go
lines 221-231). -/
structure Statfs where
  bavail : Nat
  bsize : Nat
deriving Repr, DecidableEq

/-- Available megabytes as computed on job.go line 229. -/
def availMB (s : Statfs) : Nat := s.bavail * s.bsize / (1024 * 1024)

/-- `Store.hasEnoughSpace` (job.go lines 221-231). `st = none` models a
failing `syscall.Statfs`, in which case the code assumes there is space. -/
def hasEnoughSpace (minFreeMB : Nat) (st : Option Statfs) : Bool :=
  match st with
  | none => true
  | some s => availMB s ≥ minFreeMB

/-- The `Store` fields used by `Save` (job.go lines 125-129). -/
structure StoreCfg where
  basePath : String
  minFreeMB : Nat
deriving Repr, DecidableEq

/-- Environment for one `Store.Save` run: the statfs answer and the outcome
of each fallible step. -/
structure SaveEnv where
  st : Option Statfs
  mkdirOk : Bool
  marshalOk : Bool
  binOutcome : WriteOutcome
  jsonOutcome : WriteOutcome
deriving Repr, DecidableEq

/-- Error cases of `Store.Save`, one per `return fmt.Errorf` site. -/
inductive SaveResult where
  | ok
  | errUnclosed
  | errNoSpace
  | errMkdir
  | errBinWrite
  | errMarshal
  | errJSONWrite
deriving Repr, DecidableEq

/-- The date directory of a job (job.go line 159); `fmtDir` stands for the
`ts.Format` calls producing `YYYY/MM/DD`. -/
def jobDir (cfg : StoreCfg) (fmtDir : Nat → String) (j : Job) : String :=
  cfg.basePath ++ "/" ++ fmtDir j.metadata.captureStartTS

/-- The base name `<dir>/<job_id>` of a job (job.go line 164). -/
def jobBaseName (cfg : StoreCfg) (fmtDir : Nat → String) (j : Job) : String :=
  jobDir cfg fmtDir j ++ "/" ++ j.metadata.jobID

/-- `Store.Save` (job.go lines 144-188). `enc` stands for
`json.MarshalIndent` on the metadata. Mirrors the Go early returns:
closed-check, disk gate, mkdir, atomic binary write, marshal (removing the
binary on failure), atomic metadata write (removing the binary on
failure). -/
def Store.save (cfg : StoreCfg) (env : SaveEnv) (fmtDir : Nat → String)
    (enc : Metadata → List Nat) (fs : FS) (j : Job) : FS × SaveResult :=
  if !j.isClosed then (fs, .errUnclosed)
  else if !hasEnoughSpace cfg.minFreeMB env.st then (fs, .errNoSpace)
  else if !env.mkdirOk then (fs, .errMkdir)
  else
    let fs1 := fs.mkdir (jobDir cfg fmtDir j)
    let binPath := jobBaseName cfg fmtDir j ++ ".bin"
    let jsonPath := jobBaseName cfg fmtDir j ++ ".json"
    let binRes := writeFileAtomic fs1 (binPath ++ ".tmp") binPath j.data env.binOutcome
    if !binRes.2 then (binRes.1, .errBinWrite)
    else if !env.marshalOk then (binRes.1.remove binPath, .errMarshal)
    else
      let jsonRes :=
        writeFileAtomic binRes.1 (jsonPath ++ ".tmp") jsonPath (enc j.metadata) env.jsonOutcome
      if !jsonRes.2 then (jsonRes.1.remove binPath, .errJSONWrite)
      else (jsonRes.1, .ok)

/-! ## Reprint detector (internal/job/reprint.go) -/

/-- Mirrors the Go `hashEntry` struct (reprint.go lines 16-20). -/
structure HashEntry where
  jobID : String
  printerIP : String
  timestamp : Nat
deriving Repr, DecidableEq

/-- The `ReprintDetector` state (reprint.go lines 9-14): the hash-indexed
entry buckets as an association list, plus the window. The mutex and the
cleanup task are dropped; cleanup is a separate function. -/
structure ReprintDetector where
  window : Nat
  hashes : List (String × List HashEntry)
deriving Repr, DecidableEq

def ReprintDetector.bucket (rd : ReprintDetector) (hash : String) : List HashEntry :=
  match rd.hashes.find? (fun e => e.1 == hash) with
  | none => []
  | some e => e.2

/-- `ReprintDetector.Check` (reprint.go lines 35-52): first entry in the
bucket for the same printer within the window, empty string otherwise.
`now - e.timestamp` truncates at zero just as the Go duration comparison
accepts future-stamped entries. -/
def ReprintDetector.check (rd : ReprintDetector) (now : Nat) (hash printerIP : String) :
    String :=
  match rd.hashes.find? (fun e => e.1 == hash) with
  | none => ""
  | some b =>
    match b.2.find? (fun e => e.printerIP == printerIP && now - e.timestamp ≤ rd.window) with
    | some e => e.jobID
    | none => ""

def ReprintDetector.setBucket (rd : ReprintDetector) (hash : String) (b : List HashEntry) :
    ReprintDetector :=
  { rd with hashes := (hash, b) :: rd.hashes.filter (fun e => e.1 != hash) }

/-- `ReprintDetector.Record` (reprint.go lines 55-66): appends an entry
stamped `now` to the bucket of `hash`. -/
def ReprintDetector.record (rd : ReprintDetector) (now : Nat)
    (hash printerIP jobID : String) : ReprintDetector :=
  rd.setBucket hash (rd.bucket hash ++ [⟨jobID, printerIP, now⟩])

/-! ## Capture sessions (internal/capture/capture.go) -/

/-- Mirrors the Go `session` struct (capture.go lines 41-52); `seqTracker`
is the set of accepted sequence numbers, `initDone` the Go flag guarding
the first-sequence latch. -/
structure Session where
  job : Job
  lastSeen : Nat
  srcIP : String
  dstIP : String
  srcPort : Nat
  dstPort : Nat
  transport : String
  seqTracker : List Nat
  nextSeq : Nat
  initDone : Bool
deriving Repr, DecidableEq

/-- Capture counters touched by the embedded paths (capture.go
lines 20-24). -/
structure Stats where
  jobsCaptured : Nat
  bytesCaptured : Nat
  parseErrors : Nat
deriving Repr, DecidableEq

/-- The payload path of `handlePacket` against an existing session
(capture.go lines 253-280): update `lastSeen`; return on empty payload;
latch the first sequence; return on a duplicate sequence; otherwise record
the sequence, append to the job, and count the bytes when the append
succeeded. Returns the updated session and `bytesCaptured` counter. -/
def handleSessionPayload (now seq : Nat) (payload : List Nat)
    (sess : Session) (bytesCaptured : Nat) : Session × Nat :=
  let sess := { sess with lastSeen := now }
  if payload.length == 0 then (sess, bytesCaptured)
  else
    let sess :=
      if !sess.initDone then { sess with nextSeq := seq, initDone := true } else sess
    if sess.seqTracker.contains seq then (sess, bytesCaptured)
    else
      let sess := { sess with seqTracker := seq :: sess.seqTracker }
      let app := sess.job.append payload
      let sess := { sess with job := app.1 }
      if app.2 then (sess, bytesCaptured + payload.length)
      else (sess, bytesCaptured)

/-- Result of `finalizeSession`: the sealed session, the detector, the
filesystem and the counters after the call. -/
structure FinalizeResult where
  sess : Session
  rd : Option ReprintDetector
  fs : FS
  stats : Stats
deriving Repr, DecidableEq

/-- `finalizeSession` (capture.go lines 332-370): close the job; return at
once when `ByteLen` is zero; otherwise consult the detector, set the
reprint back-reference on a match, record the hash, then attempt the save,
incrementing `JobsCaptured` on success and `ParseErrors` on failure. Note
that `Record` runs before `Store.Save`. -/
def finalizeSession (cfg : StoreCfg) (env : SaveEnv) (fmtDir : Nat → String)
    (enc : Metadata → List Nat) (hashFn : List Nat → String) (now : Nat)
    (sess : Session) (rd : Option ReprintDetector) (fs : FS) (stats : Stats) :
    FinalizeResult :=
  let sess := { sess with job := sess.job.close now hashFn }
  if sess.job.metadata.byteLen == 0 then ⟨sess, rd, fs, stats⟩
  else
    let step :=
      match rd with
      | none => (sess, (none : Option ReprintDetector))
      | some d =>
        let originalID := d.check now (sess.job.getHash) sess.dstIP
        let sess :=
          if originalID != "" then { sess with job := sess.job.setReprintOf originalID }
          else sess
        (sess, some (d.record now (sess.job.getHash) sess.dstIP sess.job.metadata.jobID))
    let sess := step.1
    let saved := Store.save cfg env fmtDir enc fs sess.job
    match saved.2 with
    | .ok => ⟨sess, step.2, saved.1, { stats with jobsCaptured := stats.jobsCaptured + 1 }⟩
    | _ => ⟨sess, step.2, saved.1, { stats with parseErrors := stats.parseErrors + 1 }⟩

/-! ## Uploader (upload package) -/

/-- Mirrors the Go `UploadStatus` struct (upload lines 24-31). -/
structure UploadStatus where
  jobID : String
  status : String
  attempts : Nat
  lastAttempt : Nat
  lastError : String
  uploadedAt : Nat
deriving Repr, DecidableEq

/-- `loadOrCreateStatus` (upload lines 245-258): the parsed sidecar when the
file reads and parses, else a fresh pending record. `sidecarFile = none`
covers both a missing file and a parse failure. -/
def loadOrCreateStatus (sidecarFile : Option UploadStatus) (jobID : String) :
    UploadStatus :=
  match sidecarFile with
  | some s => s
  | none => ⟨jobID, "pending", 0, 0, "", 0⟩

/-- The per-file decision of `scanPending` (upload lines 280-289): a job
base path is enqueued exactly when its sidecar status is not
"uploaded". -/
def scanEnqueues (sidecarFile : Option UploadStatus) (jobID : String) : Bool :=
  (loadOrCreateStatus sidecarFile jobID).status != "uploaded"

/-- The on-disk files `processJob` reads for one job base path; `none`
models a read (or, for the metadata, parse) failure. -/
structure JobFiles where
  sidecar : Option UploadStatus
  meta : Option Metadata
  bin : Option (List Nat)
deriving Repr, DecidableEq

/-- The retry loop of `processJob` (upload lines 157-187). `attemptOk i`
is whether the i-th HTTP attempt succeeds, `errMsg i` its error text
otherwise; `remaining` counts the loop iterations left. Each iteration
stamps `attempts`/`lastAttempt`, and either marks `uploaded` or records
`lastError`; after the last iteration the status becomes "failed". Returns
the final sidecar record and the number of HTTP attempts made. -/
def runAttempts (attemptOk : Nat → Bool) (errMsg : Nat → String) (now : Nat) :
    Nat → Nat → UploadStatus → UploadStatus × Nat
  | _, 0, status => ({ status with status := "failed" }, 0)
  | attempt, remaining + 1, status =>
    let status := { status with attempts := attempt, lastAttempt := now }
    if attemptOk attempt then
      ({ status with status := "uploaded", uploadedAt := now }, 1)
    else
      let status := { status with lastError := errMsg attempt }
      let rest := runAttempts attemptOk errMsg now (attempt + 1) remaining status
      (rest.1, rest.2 + 1)

/-- `processJob` (upload lines 117-192): load or create the sidecar; skip
when already uploaded; bail out when metadata or payload cannot be read;
otherwise run up to `maxRetries` attempts. Returns the sidecar file content
after the call and the number of HTTP attempts performed. -/
def processJob (maxRetries : Nat) (attemptOk : Nat → Bool) (errMsg : Nat → String)
    (now : Nat) (files : JobFiles) (jobID : String) : Option UploadStatus × Nat :=
  let status := loadOrCreateStatus files.sidecar jobID
  if status.status == "uploaded" then (files.sidecar, 0)
  else
    match files.meta with
    | none => (files.sidecar, 0)
    | some _ =>
      match files.bin with
      | none => (files.sidecar, 0)
      | some _ =>
        let res := runAttempts attemptOk errMsg now 1 maxRetries status
        (some res.1, res.2)

/-! ## Sample data shared by witnesses -/

/-- A concrete metadata record used by witness instantiations. -/
def sampleMeta : Metadata :=
  ⟨"job-0", "dev-1", "site-1", "192.168.1.50", 9100, "192.168.1.10",
    3, 0, 0, "", "tcp9100", [], ""⟩

/-- A concrete open job. -/
def sampleOpenJob : Job := ⟨sampleMeta, [64, 65], false⟩

/-- A concrete closed job (as produced by a close at tick 9). -/
def sampleClosedJob : Job :=
  ⟨{ sampleMeta with captureEndTS := 9, byteLen := 2, sha256 := "h-0" }, [64, 65], true⟩

/-! ## Helper lemmas -/

theorem FS.get_remove_self (fs : FS) (p : String) : (fs.remove p).get p = none := by
  have h : (fs.files.filter (fun e => e.1 != p)).find? (fun e => e.1 == p) = none := by
    rw [List.find?_eq_none]
    intro x hx
    have hne := (List.mem_filter.mp hx).2
    simp only [bne_iff_ne, ne_eq, decide_eq_true_eq] at hne
    simp [hne]
  simp [FS.get, FS.remove, h]

theorem Job.setReprintOf_data (j : Job) (i : String) :
    (j.setReprintOf i).data = j.data := by
  simp only [Job.setReprintOf]
  split <;> rfl

theorem Job.setReprintOf_closed (j : Job) (i : String) :
    (j.setReprintOf i).closed = j.closed := by
  simp only [Job.setReprintOf]
  split <;> rfl

theorem Job.setReprintOf_sha256 (j : Job) (i : String) :
    (j.setReprintOf i).metadata.sha256 = j.metadata.sha256 := by
  simp only [Job.setReprintOf]
  split <;> rfl

theorem Job.setReprintOf_jobID (j : Job) (i : String) :
    (j.setReprintOf i).metadata.jobID = j.metadata.jobID := by
  simp only [Job.setReprintOf]
  split <;> rfl

theorem Job.setReprintOf_captureEndTS (j : Job) (i : String) :
    (j.setReprintOf i).metadata.captureEndTS = j.metadata.captureEndTS := by
  simp only [Job.setReprintOf]
  split <;> rfl

theorem Job.setReprintOf_byteLen (j : Job) (i : String) :
    (j.setReprintOf i).metadata.byteLen = j.metadata.byteLen := by
  simp only [Job.setReprintOf]
  split <;> rfl

/-- Whatever branch a save takes after passing the disk gate, its result is
never the out-of-space error. -/
theorem save_result_ne_noSpace_of_space (cfg : StoreCfg) (env : SaveEnv)
    (fmtDir : Nat → String) (enc : Metadata → List Nat) (fs : FS) (j : Job)
    (hclosed : j.closed = true)
    (hspace : hasEnoughSpace cfg.minFreeMB env.st = true) :
    (Store.save cfg env fmtDir enc fs j).2 ≠ SaveResult.errNoSpace := by
  unfold Store.save
  simp only [Job.isClosed, hclosed, hspace, Bool.not_true, Bool.false_eq_true, if_false]
  split
  · simp
  · split
    · simp
    · split
      · simp
      · split
        · simp
        · simp

/-! ## Claim theorems -/

/-- Claim C10: Store.Save called on a job that is not closed returns the
unclosed-job error before the disk-space check and before any file or
directory is created; the filesystem value is returned unchanged, whatever
the disk-space answer and write outcomes are. -/
theorem save_unclosed_noop (cfg : StoreCfg) (env : SaveEnv)
    (fmtDir : Nat → String) (enc : Metadata → List Nat) (fs : FS) (j : Job)
    (h : j.closed = false) :
    Store.save cfg env fmtDir enc fs j = (fs, SaveResult.errUnclosed) := by
  unfold Store.save
  simp [Job.isClosed, h]

theorem save_unclosed_noop_witness :
    Store.save ⟨"/base", 100⟩ ⟨some ⟨0, 4096⟩, true, true, .ok, .ok⟩
        (fun _ => "2026/02/04") (fun _ => []) ⟨[], []⟩ sampleOpenJob
      = (⟨[], []⟩, SaveResult.errUnclosed) :=
  save_unclosed_noop ⟨"/base", 100⟩ ⟨some ⟨0, 4096⟩, true, true, .ok, .ok⟩
    (fun _ => "2026/02/04") (fun _ => []) ⟨[], []⟩ sampleOpenJob rfl

/-- Claim C7: the disk-space gate admits a save exactly when the available
megabytes are at least min_free_mb: the gate is true iff
min_free_mb ≤ availMB, a save on a closed job with availMB strictly below
min_free_mb is refused with the out-of-space error and leaves the
filesystem unchanged, and with availMB at or above min_free_mb the save is
never refused for space. -/
theorem save_disk_gate (cfg : StoreCfg) (s : Statfs) (env : SaveEnv)
    (fmtDir : Nat → String) (enc : Metadata → List Nat) (fs : FS) (j : Job)
    (hst : env.st = some s) (hclosed : j.closed = true) :
    (hasEnoughSpace cfg.minFreeMB env.st = true ↔ cfg.minFreeMB ≤ availMB s) ∧
    (availMB s < cfg.minFreeMB →
      Store.save cfg env fmtDir enc fs j = (fs, SaveResult.errNoSpace)) ∧
    (cfg.minFreeMB ≤ availMB s →
      (Store.save cfg env fmtDir enc fs j).2 ≠ SaveResult.errNoSpace) := by
  refine ⟨?_, ?_, ?_⟩
  · rw [hst]
    simp [hasEnoughSpace, ge_iff_le]
  · intro hlt
    have hgate : hasEnoughSpace cfg.minFreeMB env.st = false := by
      rw [hst]
      simp [hasEnoughSpace, ge_iff_le]
      exact hlt
    unfold Store.save
    simp [Job.isClosed, hclosed, hgate]
  · intro hle
    have hgate : hasEnoughSpace cfg.minFreeMB env.st = true := by
      rw [hst]
      simp [hasEnoughSpace, ge_iff_le, hle]
    exact save_result_ne_noSpace_of_space cfg env fmtDir enc fs j hclosed hgate

theorem save_disk_gate_witness :
    (availMB ⟨99, 1024 * 1024⟩ < 100 ∧
      Store.save ⟨"/base", 100⟩ ⟨some ⟨99, 1024 * 1024⟩, true, true, .ok, .ok⟩
          (fun _ => "2026/02/04") (fun _ => []) ⟨[], []⟩ sampleClosedJob
        = (⟨[], []⟩, SaveResult.errNoSpace)) ∧
    (100 ≤ availMB ⟨100, 1024 * 1024⟩ ∧
      (Store.save ⟨"/base", 100⟩ ⟨some ⟨100, 1024 * 1024⟩, true, true, .ok, .ok⟩
          (fun _ => "2026/02/04") (fun _ => []) ⟨[], []⟩ sampleClosedJob).2
        ≠ SaveResult.errNoSpace) :=
  ⟨⟨by decide,
    (save_disk_gate ⟨"/base", 100⟩ ⟨99, 1024 * 1024⟩
        ⟨some ⟨99, 1024 * 1024⟩, true, true, .ok, .ok⟩
        (fun _ => "2026/02/04") (fun _ => []) ⟨[], []⟩ sampleClosedJob rfl rfl).2.1
      (by decide)⟩,
   ⟨by decide,
    (save_disk_gate ⟨"/base", 100⟩ ⟨100, 1024 * 1024⟩
        ⟨some ⟨100, 1024 * 1024⟩, true, true, .ok, .ok⟩
        (fun _ => "2026/02/04") (fun _ => []) ⟨[], []⟩ sampleClosedJob rfl rfl).2.2
      (by decide)⟩⟩

/-- Claim C9: when the statfs query fails, the disk gate reports enough
space and a save of a closed job is never refused for space. -/
theorem save_proceeds_on_statfs_error (cfg : StoreCfg) (env : SaveEnv)
    (fmtDir : Nat → String) (enc : Metadata → List Nat) (fs : FS) (j : Job)
    (hst : env.st = none) (hclosed : j.closed = true) :
    hasEnoughSpace cfg.minFreeMB env.st = true ∧
    (Store.save cfg env fmtDir enc fs j).2 ≠ SaveResult.errNoSpace := by
  have hgate : hasEnoughSpace cfg.minFreeMB env.st = true := by
    rw [hst]
    rfl
  exact ⟨hgate, save_result_ne_noSpace_of_space cfg env fmtDir enc fs j hclosed hgate⟩

theorem save_proceeds_on_statfs_error_witness :
    hasEnoughSpace 100 (SaveEnv.st ⟨none, true, true, .ok, .ok⟩) = true ∧
    (Store.save ⟨"/base", 100⟩ ⟨none, true, true, .ok, .ok⟩
        (fun _ => "2026/02/04") (fun _ => []) ⟨[], []⟩ sampleClosedJob).2
      ≠ SaveResult.errNoSpace :=
  save_proceeds_on_statfs_error ⟨"/base", 100⟩ ⟨none, true, true, .ok, .ok⟩
    (fun _ => "2026/02/04") (fun _ => []) ⟨[], []⟩ sampleClosedJob rfl rfl

/-- A sidecar in the terminal failed state, as left after max_retries
exhausted attempts. -/
def failedSidecar : UploadStatus :=
  ⟨"job-f", "failed", 3, 17, "upload failed: status 500, body: boom", 0⟩

/-- Claim C2: the startup recovery scan is claimed to skip sidecars with the
terminal "failed" status, but the per-file decision of scanPending enqueues
every job whose sidecar status is not "uploaded" — evaluated on a sidecar
with status "failed", the scan does enqueue it. -/
theorem scan_enqueues_failed_sidecar :
    failedSidecar.status = "failed" ∧
    scanEnqueues (some failedSidecar) "job-f" = true := by
  decide

/-- Claim C8: processing a job whose sidecar already has status "uploaded"
performs zero HTTP attempts and returns the sidecar file unchanged. -/
theorem process_uploaded_noop (maxRetries : Nat) (attemptOk : Nat → Bool)
    (errMsg : Nat → String) (now : Nat) (files : JobFiles) (jobID : String)
    (s : UploadStatus) (hfile : files.sidecar = some s)
    (hs : s.status = "uploaded") :
    processJob maxRetries attemptOk errMsg now files jobID = (files.sidecar, 0) := by
  unfold processJob loadOrCreateStatus
  rw [hfile]
  simp [hs]

theorem process_uploaded_noop_witness :
    processJob 3 (fun _ => false) (fun _ => "err") 21
        ⟨some ⟨"job-0", "uploaded", 1, 11, "", 12⟩, some sampleMeta, some [64, 65]⟩ "job-0"
      = (some ⟨"job-0", "uploaded", 1, 11, "", 12⟩, 0) :=
  process_uploaded_noop 3 (fun _ => false) (fun _ => "err") 21
    ⟨some ⟨"job-0", "uploaded", 1, 11, "", 12⟩, some sampleMeta, some [64, 65]⟩ "job-0"
    ⟨"job-0", "uploaded", 1, 11, "", 12⟩ rfl rfl

/-- A concrete closed job with an empty tag set, for the C5 counterexample. -/
def c5ClosedJob : Job :=
  ⟨⟨"job-c5", "dev-1", "site-1", "192.168.1.50", 9100, "192.168.1.10",
      3, 9, 1, "h-c5", "tcp9100", [], ""⟩, [64], true⟩

/-- Claim C5 counterexample: on a closed job, AddTag still appends to the
tag set and SetReprintOf still sets the reprint back-reference (and tag),
so a closed job is not immune to every listed operation. -/
theorem closed_job_mutated_by_addTag :
    c5ClosedJob.closed = true ∧
    (c5ClosedJob.addTag "note").metadata.tags ≠ c5ClosedJob.metadata.tags ∧
    (c5ClosedJob.setReprintOf "job-orig").metadata.reprintOfJobID
      ≠ c5ClosedJob.metadata.reprintOfJobID := by
  decide

/-- Claim C5 as amended: once a job is closed, Append rejects the data and
returns the job unchanged, a second Close is the identity, and AddTag and
SetReprintOf — which do mutate the tag set and reprint back-reference even
on a closed job — leave the payload bytes, hash, end timestamp and length
unchanged. -/
theorem closed_job_core_immutable (j : Job) (h : j.closed = true)
    (d : List Nat) (now : Nat) (hashFn : List Nat → String) (tag orig : String) :
    j.append d = (j, false) ∧
    j.close now hashFn = j ∧
    ((j.addTag tag).data = j.data ∧
      (j.addTag tag).metadata.sha256 = j.metadata.sha256 ∧
      (j.addTag tag).metadata.captureEndTS = j.metadata.captureEndTS ∧
      (j.addTag tag).metadata.byteLen = j.metadata.byteLen) ∧
    ((j.setReprintOf orig).data = j.data ∧
      (j.setReprintOf orig).metadata.sha256 = j.metadata.sha256 ∧
      (j.setReprintOf orig).metadata.captureEndTS = j.metadata.captureEndTS ∧
      (j.setReprintOf orig).metadata.byteLen = j.metadata.byteLen) := by
  refine ⟨?_, ?_, ⟨rfl, rfl, rfl, rfl⟩, ?_⟩
  · unfold Job.append
    simp [h]
  · unfold Job.close
    simp [h]
  · exact ⟨Job.setReprintOf_data j orig, Job.setReprintOf_sha256 j orig,
      Job.setReprintOf_captureEndTS j orig, Job.setReprintOf_byteLen j orig⟩

theorem closed_job_core_immutable_witness :
    c5ClosedJob.append [7] = (c5ClosedJob, false) ∧
    c5ClosedJob.close 12 (fun _ => "h2") = c5ClosedJob :=
  ⟨(closed_job_core_immutable c5ClosedJob rfl [7] 12 (fun _ => "h2") "note" "job-orig").1,
   (closed_job_core_immutable c5ClosedJob rfl [7] 12 (fun _ => "h2") "note" "job-orig").2.1⟩

/-- Claim C6: on an open session, a payload-bearing packet whose sequence is
already in the accepted-sequence set appends nothing and leaves
bytes_captured unchanged, while a fresh sequence appends exactly the
payload and adds its length to bytes_captured. -/
theorem handle_payload_dedup (now seq : Nat) (payload : List Nat)
    (sess : Session) (bytes : Nat)
    (hopen : sess.job.closed = false) (hp : payload ≠ []) :
    (sess.seqTracker.contains seq = true →
      (handleSessionPayload now seq payload sess bytes).1.job = sess.job ∧
      (handleSessionPayload now seq payload sess bytes).2 = bytes) ∧
    (sess.seqTracker.contains seq = false →
      (handleSessionPayload now seq payload sess bytes).1.job.data
          = sess.job.data ++ payload ∧
      (handleSessionPayload now seq payload sess bytes).2
          = bytes + payload.length) := by
  have hlen : (payload.length == 0) = false := by
    cases payload with
    | nil => exact absurd rfl hp
    | cons a t => rfl
  constructor
  · intro hseen
    have hmem : seq ∈ sess.seqTracker := by simpa using hseen
    cases hinit : sess.initDone <;>
      simp [handleSessionPayload, hlen, hinit, hmem]
  · intro hfresh
    have hmem : seq ∉ sess.seqTracker := by simpa using hfresh
    cases hinit : sess.initDone <;>
      simp [handleSessionPayload, Job.append, hlen, hinit, hmem, hopen]

/-- A concrete open session with one accepted sequence, for the C6 witness. -/
def c6Sess : Session :=
  ⟨sampleOpenJob, 3, "192.168.1.10", "192.168.1.50", 44321, 9100, "tcp9100",
    [1000], 1000, true⟩

theorem handle_payload_dedup_witness :
    ((handleSessionPayload 5 1000 [66] c6Sess 2).1.job = c6Sess.job ∧
      (handleSessionPayload 5 1000 [66] c6Sess 2).2 = 2) ∧
    ((handleSessionPayload 5 1500 [66] c6Sess 2).1.job.data
        = c6Sess.job.data ++ [66] ∧
      (handleSessionPayload 5 1500 [66] c6Sess 2).2 = 3) :=
  ⟨(handle_payload_dedup 5 1000 [66] c6Sess 2 rfl (by decide)).1 (by decide),
   (handle_payload_dedup 5 1500 [66] c6Sess 2 rfl (by decide)).2 (by decide)⟩

/-- Claim C4: a session finalizing with an empty payload closes the job and
returns at once: the reprint detector is not consulted and nothing is
recorded, no save is attempted, the filesystem is untouched and the
counters are unchanged. -/
theorem finalize_empty_job_noop (cfg : StoreCfg) (env : SaveEnv)
    (fmtDir : Nat → String) (enc : Metadata → List Nat) (hashFn : List Nat → String)
    (now : Nat) (sess : Session) (rd : Option ReprintDetector) (fs : FS) (stats : Stats)
    (hopen : sess.job.closed = false) (hdata : sess.job.data = []) :
    (finalizeSession cfg env fmtDir enc hashFn now sess rd fs stats).rd = rd ∧
    (finalizeSession cfg env fmtDir enc hashFn now sess rd fs stats).fs = fs ∧
    (finalizeSession cfg env fmtDir enc hashFn now sess rd fs stats).stats = stats := by
  unfold finalizeSession
  simp [Job.close, hopen, hdata]

/-- A concrete session holding an open job with no payload (SYN seen, no
data), for the C4 witness. -/
def emptySess : Session :=
  ⟨⟨sampleMeta, [], false⟩, 3, "192.168.1.10", "192.168.1.50", 44321, 9100,
    "tcp9100", [], 0, false⟩

theorem finalize_empty_job_noop_witness :
    (finalizeSession ⟨"/base", 100⟩ ⟨some ⟨500, 1024 * 1024⟩, true, true, .ok, .ok⟩
        (fun _ => "2026/02/04") (fun _ => []) (fun _ => "h-e") 9
        emptySess (some ⟨300, []⟩) ⟨[], []⟩ ⟨0, 0, 0⟩).rd = some ⟨300, []⟩ ∧
    (finalizeSession ⟨"/base", 100⟩ ⟨some ⟨500, 1024 * 1024⟩, true, true, .ok, .ok⟩
        (fun _ => "2026/02/04") (fun _ => []) (fun _ => "h-e") 9
        emptySess (some ⟨300, []⟩) ⟨[], []⟩ ⟨0, 0, 0⟩).fs = ⟨[], []⟩ ∧
    (finalizeSession ⟨"/base", 100⟩ ⟨some ⟨500, 1024 * 1024⟩, true, true, .ok, .ok⟩
        (fun _ => "2026/02/04") (fun _ => []) (fun _ => "h-e") 9
        emptySess (some ⟨300, []⟩) ⟨[], []⟩ ⟨0, 0, 0⟩).stats = ⟨0, 0, 0⟩ :=
  finalize_empty_job_noop ⟨"/base", 100⟩ ⟨some ⟨500, 1024 * 1024⟩, true, true, .ok, .ok⟩
    (fun _ => "2026/02/04") (fun _ => []) (fun _ => "h-e") 9
    emptySess (some ⟨300, []⟩) ⟨[], []⟩ ⟨0, 0, 0⟩ rfl rfl

/-- Claim C3: when the binary write succeeds but the metadata step fails
(marshalling error or metadata write error), Save removes the binary file
and returns the corresponding error, so no .bin file is left without its
.json file. -/
theorem save_removes_bin_on_metadata_failure (cfg : StoreCfg) (env : SaveEnv)
    (fmtDir : Nat → String) (enc : Metadata → List Nat) (fs : FS) (j : Job)
    (hclosed : j.closed = true)
    (hspace : hasEnoughSpace cfg.minFreeMB env.st = true)
    (hmkdir : env.mkdirOk = true)
    (hbin : env.binOutcome = .ok)
    (hfail : env.marshalOk = false ∨ env.jsonOutcome ≠ .ok) :
    (Store.save cfg env fmtDir enc fs j).1.get (jobBaseName cfg fmtDir j ++ ".bin")
        = none ∧
    ((Store.save cfg env fmtDir enc fs j).2 = SaveResult.errMarshal ∨
      (Store.save cfg env fmtDir enc fs j).2 = SaveResult.errJSONWrite) := by
  cases hm : env.marshalOk
  · unfold Store.save
    simp [Job.isClosed, hclosed, hspace, hmkdir, hbin, hm, writeFileAtomic,
      FS.get_remove_self]
  · have hj : env.jsonOutcome ≠ .ok := by
      rcases hfail with h | h
      · rw [hm] at h
        exact absurd h (by simp)
      · exact h
    cases ho : env.jsonOutcome
    · exact absurd ho hj
    all_goals
      unfold Store.save
    all_goals
      simp [Job.isClosed, hclosed, hspace, hmkdir, hbin, hm, ho, writeFileAtomic,
        FS.get_remove_self]

theorem save_removes_bin_on_metadata_failure_witness :
    (Store.save ⟨"/base", 100⟩ ⟨some ⟨500, 1024 * 1024⟩, true, false, .ok, .ok⟩
          (fun _ => "2026/02/04") (fun _ => []) ⟨[], []⟩ sampleClosedJob).1.get
        (jobBaseName ⟨"/base", 100⟩ (fun _ => "2026/02/04") sampleClosedJob ++ ".bin")
        = none ∧
    ((Store.save ⟨"/base", 100⟩ ⟨some ⟨500, 1024 * 1024⟩, true, false, .ok, .ok⟩
          (fun _ => "2026/02/04") (fun _ => []) ⟨[], []⟩ sampleClosedJob).2
        = SaveResult.errMarshal ∨
      (Store.save ⟨"/base", 100⟩ ⟨some ⟨500, 1024 * 1024⟩, true, false, .ok, .ok⟩
          (fun _ => "2026/02/04") (fun _ => []) ⟨[], []⟩ sampleClosedJob).2
        = SaveResult.errJSONWrite) :=
  save_removes_bin_on_metadata_failure ⟨"/base", 100⟩
    ⟨some ⟨500, 1024 * 1024⟩, true, false, .ok, .ok⟩
    (fun _ => "2026/02/04") (fun _ => []) ⟨[], []⟩ sampleClosedJob
    rfl (by decide) rfl rfl (Or.inl rfl)

/-- A concrete session with a one-byte payload for the C1 counterexample. -/
def c1Sess : Session :=
  ⟨⟨⟨"job-c1", "dev-1", "site-1", "10.0.0.5", 9100, "10.0.0.9",
      3, 0, 0, "", "tcp9100", [], ""⟩, [64], false⟩,
    3, "10.0.0.9", "10.0.0.5", 44321, 9100, "tcp9100", [], 0, false⟩

/-- The C1 counterexample run: finalization over a full disk. -/
def c1Out : FinalizeResult :=
  finalizeSession ⟨"/base", 100⟩ ⟨some ⟨0, 4096⟩, true, true, .ok, .ok⟩
    (fun _ => "2026/02/04") (fun _ => []) (fun _ => "h-c1") 7
    c1Sess (some ⟨300, []⟩) ⟨[], []⟩ ⟨0, 0, 0⟩

/-- Claim C1 counterexample: in this concrete finalization the save fails
(the parse_errors counter is incremented and no file is written), yet the
reprint detector has gained the entry for the job's hash — Record ran
before Save, not after a successful save. -/
theorem finalize_failed_save_still_records :
    c1Out.stats.parseErrors = 1 ∧
    c1Out.fs = ⟨[], []⟩ ∧
    c1Out.rd = some ⟨300, [("h-c1", [⟨"job-c1", "10.0.0.5", 7⟩])]⟩ := by
  decide

/-- Claim C1 as amended: finalizeSession invokes Record before Store.Save,
so for every finalized non-empty job the detector gains the entry for the
job's hash even when persistence fails (here: the disk gate refuses the
save, parse_errors is incremented and the filesystem is untouched). -/
theorem finalize_records_before_save (cfg : StoreCfg) (env : SaveEnv)
    (fmtDir : Nat → String) (enc : Metadata → List Nat) (hashFn : List Nat → String)
    (now : Nat) (sess : Session) (d : ReprintDetector) (fs : FS) (stats : Stats)
    (hopen : sess.job.closed = false) (hdata : sess.job.data ≠ [])
    (hnospace : hasEnoughSpace cfg.minFreeMB env.st = false) :
    (finalizeSession cfg env fmtDir enc hashFn now sess (some d) fs stats).stats.parseErrors
        = stats.parseErrors + 1 ∧
    (finalizeSession cfg env fmtDir enc hashFn now sess (some d) fs stats).fs = fs ∧
    (finalizeSession cfg env fmtDir enc hashFn now sess (some d) fs stats).rd
        = some (d.record now (hashFn sess.job.data) sess.dstIP
            sess.job.metadata.jobID) := by
  have hlen : (sess.job.data.length == 0) = false := by
    rw [beq_eq_false_iff_ne]
    simpa [List.length_eq_zero] using hdata
  by_cases hchk :
      d.check now (hashFn sess.job.data) sess.dstIP = ""
  · simp [finalizeSession, Job.close, Job.getHash, Job.isClosed, Store.save,
      hopen, hlen, hnospace, hchk]
  · simp [finalizeSession, Job.close, Job.getHash, Job.isClosed, Store.save,
      hopen, hlen, hnospace, hchk, Job.setReprintOf_sha256, Job.setReprintOf_jobID,
      Job.setReprintOf_closed]

theorem finalize_records_before_save_witness :
    (finalizeSession ⟨"/base", 100⟩ ⟨some ⟨0, 4096⟩, true, true, .ok, .ok⟩
        (fun _ => "2026/02/04") (fun _ => []) (fun _ => "h-c1") 7
        c1Sess (some ⟨300, []⟩) ⟨[], []⟩ ⟨0, 0, 0⟩).stats.parseErrors = 0 + 1 ∧
    (finalizeSession ⟨"/base", 100⟩ ⟨some ⟨0, 4096⟩, true, true, .ok, .ok⟩
        (fun _ => "2026/02/04") (fun _ => []) (fun _ => "h-c1") 7
        c1Sess (some ⟨300, []⟩) ⟨[], []⟩ ⟨0, 0, 0⟩).fs = ⟨[], []⟩ ∧
    (finalizeSession ⟨"/base", 100⟩ ⟨some ⟨0, 4096⟩, true, true, .ok, .ok⟩
        (fun _ => "2026/02/04") (fun _ => []) (fun _ => "h-c1") 7
        c1Sess (some ⟨300, []⟩) ⟨[], []⟩ ⟨0, 0, 0⟩).rd
      = some (ReprintDetector.record ⟨300, []⟩ 7 ((fun _ => "h-c1") c1Sess.job.data)
          c1Sess.dstIP c1Sess.job.metadata.jobID) :=
  finalize_records_before_save ⟨"/base", 100⟩ ⟨some ⟨0, 4096⟩, true, true, .ok, .ok⟩
    (fun _ => "2026/02/04") (fun _ => []) (fun _ => "h-c1") 7
    c1Sess ⟨300, []⟩ ⟨[], []⟩ ⟨0, 0, 0⟩ rfl (by decide) (by decide)

end Tap
